import Mathlib

/-!
Shallow embedding of the fleet-side device agent (src/main.py) and proofs of
its specified properties.

The agent keeps a gated single-pending-batch command queue fed by a poller
(`fetch_loop`), a dispatcher (`print_loop`) that classifies each drained
command into start / stop / regular groups, a session manager
(`handle_start_game` / `handle_stop_game`) owning a map from device serial to
persistent session, and a one-shot executor (`run_adb_once`).

External effects (process launches, thread liveness, process termination
outcomes) are modelled by oracles passed as parameters; side-effecting steps of
the session manager are recorded as an explicit `Action` trace.
-/

namespace Agent

/-- A remotely issued command: device serial plus freeform command text
(dict keys `serial` and `command_text` in the source). -/
structure Command where
  serial : String
  command_text : String
deriving DecidableEq

/-- The three classification groups of the dispatcher. -/
inductive Group where
  | start
  | stop
  | regular
deriving DecidableEq

/-- The persistent-session launch signature tested at main.py line 248. -/
def startSig : String := "nat.myc.test/androidx.test.runner.AndroidJUnitRunner"

/-- The session-termination signature tested at main.py line 250. -/
def stopSig : String := "force-stop nat.myc.test"

/-- Contiguous-substring search over character lists: does `needle` occur at
some position of `hay`? -/
def subOccurs (needle : List Char) : List Char → Bool
  | [] => needle.isEmpty
  | c :: rest => needle.isPrefixOf (c :: rest) || subOccurs needle rest

/-- Python substring containment (`needle in hay`). -/
def containsSub (needle hay : String) : Bool :=
  subOccurs needle.data hay.data

/-- The classification predicate of `print_loop` (main.py lines 248-253):
the start signature is tested first, then the stop signature, else regular. -/
def classify (text : String) : Group :=
  if containsSub startSig text then Group.start
  else if containsSub stopSig text then Group.stop
  else Group.regular

/-- The partitioning loop of `print_loop` (main.py lines 243-253): commands
with an empty serial or empty text are skipped, the rest are routed by
`classify` into the start, stop and regular groups in original order. -/
def partitionBatch : List Command → List Command × List Command × List Command
  | [] => ([], [], [])
  | c :: rest =>
    let p := partitionBatch rest
    if c.serial = "" ∨ c.command_text = "" then p
    else
      match classify c.command_text with
      | Group.start => (c :: p.1, p.2.1, p.2.2)
      | Group.stop => (p.1, c :: p.2.1, p.2.2)
      | Group.regular => (p.1, p.2.1, c :: p.2.2)

/-- Python `str.strip()`: remove leading and trailing whitespace. -/
def pyStrip (s : String) : String :=
  ⟨((s.data.dropWhile Char.isWhitespace).reverse.dropWhile Char.isWhitespace).reverse⟩

/-- Result dict of `run_adb_once` (main.py lines 61-66). -/
structure ExecResult where
  serial : String
  code : Int
  stdout : String
  stderr : String
deriving DecidableEq

/-- Outcome of attempting to launch the device bridge once: either the process
ran to completion with an exit code and captured streams, or a launch-time
fault was raised with a description (the `except Exception` arm). -/
inductive AdbOutcome where
  | completed (code : Int) (out err : String)
  | launchFault (msg : String)

/-- `run_adb_once` (main.py lines 45-66): `code` starts at -1 and `out`, `err`
start empty; on completion they are overwritten; on a launch fault only `err`
is set to the fault description. Both streams are stripped on return. -/
def run_adb_once (serial : String) (outcome : AdbOutcome) : ExecResult :=
  match outcome with
  | AdbOutcome.completed code out err =>
    { serial := serial, code := code, stdout := pyStrip out, stderr := pyStrip err }
  | AdbOutcome.launchFault msg =>
    { serial := serial, code := -1, stdout := "", stderr := pyStrip msg }

/-- The queue gate of `fetch_loop` (main.py lines 124-130): a non-empty fetched
batch is appended only when the shared command list is empty; otherwise it is
dropped whole. An empty fetched batch never touches the queue. -/
def offer (commands batch : List Command) : List Command :=
  if batch.isEmpty then commands
  else if commands.isEmpty then commands ++ batch
  else commands

/-- A per-serial session entry (the dict built at main.py line 161): the
identity of its cancellation `threading.Event`, the supervising thread handle
(absent until assigned) and the current process handle. Handles are modelled
by numeric identities. -/
structure Session where
  stopTok : Nat
  thread : Option Nat
  process : Option Nat
deriving DecidableEq

/-- The `game_sessions` map from device serial to session. -/
def SessMap : Type := String → Option Session

/-- Store a session under a serial (`game_sessions[serial] = session`). -/
def setSess (m : SessMap) (serial : String) (s : Session) : SessMap :=
  fun x => if x = serial then some s else m x

/-- Remove a serial (`game_sessions.pop(serial, None)`). -/
def eraseSess (m : SessMap) (serial : String) : SessMap :=
  fun x => if x = serial then none else m x

/-- `handle_start_game` (main.py lines 155-191), restricted to its effect on
the session map. `alive` is the thread-liveness oracle (`Thread.is_alive`).
If a session exists whose thread handle is set and alive, the call returns
with the map untouched; otherwise a fresh session is registered with a fresh
cancellation token, the freshly started supervising thread, and no process. -/
def handle_start_game (alive : Nat → Bool) (m : SessMap) (serial : String)
    (freshTok freshThread : Nat) : SessMap :=
  let liveAlready :=
    match m serial with
    | some s =>
      match s.thread with
      | some t => alive t
      | none => false
    | none => false
  if liveAlready then m
  else setSess m serial { stopTok := freshTok, thread := some freshThread, process := none }

/-- Side effects performed by the session manager, recorded in program order. -/
inductive Action where
  | signalCancel (tok : Nat)
  | terminate (p : Nat)
  | kill (p : Nat)
  | joinThread (t : Nat)
  | removeSession (serial : String)
  | runOnce (serial : String) (text : String)
deriving DecidableEq

/-- Oracles for the stop path: whether a process handle is still alive
(`proc.poll() is None`) and whether it exits within the 5-second grace period
after `terminate` (`proc.wait(timeout=5)` returning without exception). -/
structure ProcEnv where
  procAlive : Nat → Bool
  gracefulExit : Nat → Bool

/-- `handle_stop_game` (main.py lines 193-216). With no session for the serial
the whole block is skipped and only the stop command itself is executed once.
With a session: signal its cancellation event; if a process handle is present
and alive, terminate it and, when it does not exit within the grace period,
kill it; join the supervising thread (bounded); pop the serial from the map;
finally run the stop command once (its result is discarded). -/
def handle_stop_game (env : ProcEnv) (m : SessMap) (serial text : String) :
    SessMap × List Action :=
  match m serial with
  | none => (m, [Action.runOnce serial text])
  | some s =>
    let procActs :=
      match s.process with
      | some p =>
        if env.procAlive p then
          Action.terminate p :: (if env.gracefulExit p then [] else [Action.kill p])
        else []
      | none => []
    let joinActs :=
      match s.thread with
      | some t => [Action.joinThread t]
      | none => []
    (eraseSess m serial,
      Action.signalCancel s.stopTok :: procActs ++ joinActs ++
        [Action.removeSession serial, Action.runOnce serial text])

/-- Control point of the supervising loop `handle_start_game.loop`
(main.py lines 166-187):
`guard` is the `while not stop_evt.is_set()` test, `running` is the launched
process up to `communicate` returning, `postExit` is the
`if stop_evt.is_set(): break` test after the process exited, `backoff` is the
`stop_evt.wait(1)` pause, `exited` is loop exit. -/
inductive SupPhase where
  | guard
  | running
  | postExit
  | backoff
  | exited
deriving DecidableEq

/-- One step of the supervising loop. The Boolean is the value of the
cancellation event observed at that point; the returned flag records whether
this step launched the device process. -/
def supStep : SupPhase → Bool → SupPhase × Bool
  | SupPhase.guard, c => if c then (SupPhase.exited, false) else (SupPhase.running, true)
  | SupPhase.running, _ => (SupPhase.postExit, false)
  | SupPhase.postExit, c => if c then (SupPhase.exited, false) else (SupPhase.backoff, false)
  | SupPhase.backoff, _ => (SupPhase.guard, false)
  | SupPhase.exited, _ => (SupPhase.exited, false)

/-- Run the supervising loop over a list of cancellation observations,
counting process launches. -/
def supRun : SupPhase → List Bool → SupPhase × Nat
  | p, [] => (p, 0)
  | p, c :: cs =>
    let st := supStep p c
    let rest := supRun st.1 cs
    (rest.1, (if st.2 then 1 else 0) + rest.2)

/-- `run_regular_command` over a regular sub-batch (main.py lines 218-226 and
261-274): one invocation per command, each appending exactly one result; the
dispatcher joins every worker before summarizing, so the summary sees the
full result list. `adb` is the launch oracle per (serial, text). -/
def runRegular (adb : String → String → AdbOutcome) (batch : List Command) :
    List ExecResult :=
  batch.map (fun c => run_adb_once c.serial (adb c.serial c.command_text))

/-- `success_count` of the cycle summary (main.py line 276). -/
def successCount (results : List ExecResult) : Nat :=
  results.countP (fun r => decide (r.code = 0))

/-- `fail_results` of the cycle summary (main.py line 277). -/
def failResults (results : List ExecResult) : List ExecResult :=
  results.filter (fun r => decide (r.code ≠ 0))

/-- Shared state touched by one dispatcher cycle: the gated command queue and
the session map. -/
structure AgentState where
  commands : List Command
  sessions : SessMap

/-- Sequential handling of the start group (main.py lines 255-256), threading
a fresh-identity counter for new tokens and threads. -/
def processStarts (alive : Nat → Bool) : List Command → SessMap → Nat → SessMap × Nat
  | [], m, k => (m, k)
  | c :: rest, m, k =>
    processStarts alive rest (handle_start_game alive m c.serial k (k + 1)) (k + 2)

/-- Sequential handling of the stop group (main.py lines 258-259),
accumulating the action trace. -/
def processStops (env : ProcEnv) : List Command → SessMap → SessMap × List Action
  | [], m => (m, [])
  | c :: rest, m =>
    let r := handle_stop_game env m c.serial c.command_text
    let rest' := processStops env rest r.1
    (rest'.1, r.2 ++ rest'.2)

/-- One iteration of `print_loop` (main.py lines 228-288), as its effect on
the shared state, returning the new state and the batch the cycle consumed.
Under `commands_lock` the queue is copied into `batch`; an empty batch ends
the cycle; otherwise the batch is partitioned, the start group then the stop
group are handled, the regular group runs and is summarized, and finally the
queue is cleared under `commands_lock`. -/
def printCycle (alive : Nat → Bool) (env : ProcEnv)
    (adb : String → String → AdbOutcome) (k : Nat) (st : AgentState) :
    AgentState × List Command :=
  let batch := st.commands
  if batch.isEmpty then (st, batch)
  else
    let parts := partitionBatch batch
    let m1 := (processStarts alive parts.1 st.sessions k).1
    let m2 := (processStops env parts.2.1 m1).1
    let _results := runRegular adb parts.2.2
    ({ commands := [], sessions := m2 }, batch)

/-- The everywhere-empty session map, used for concrete instantiations. -/
def emptySess : SessMap := fun _ => none

/-- A thread-liveness oracle under which every thread is alive. -/
def aliveW : Nat → Bool := fun _ => true

/-- A concrete live session: token 0, supervising thread 7, no process. -/
def sessionW : Session := { stopTok := 0, thread := some 7, process := none }

/-- A concrete session map holding `sessionW` under serial "d1". -/
def sessW : SessMap := setSess emptySess "d1" sessionW

/-- A concrete session with a live process handle, for the stop path. -/
def stopSessionW : Session := { stopTok := 3, thread := some 7, process := some 9 }

/-- A concrete session map holding `stopSessionW` under serial "d2". -/
def stopSessW : SessMap := setSess emptySess "d2" stopSessionW

/-- A process environment where processes are alive and ignore graceful
termination (the escalation scenario). -/
def envW : ProcEnv := { procAlive := fun _ => true, gracefulExit := fun _ => false }

/-- A concrete three-command batch: one start command, one stop command, one
regular command. -/
def batchW : List Command :=
  [{ serial := "s1",
     command_text := "am instrument -w nat.myc.test/androidx.test.runner.AndroidJUnitRunner" },
   { serial := "s2", command_text := "shell am force-stop nat.myc.test" },
   { serial := "s3", command_text := "shell echo hi" }]

/-- A command text containing both the launch signature and the termination
signature. -/
def ambiguousTextW : String :=
  "am instrument nat.myc.test/androidx.test.runner.AndroidJUnitRunner then force-stop nat.myc.test"

/-- C1: one dispatcher cycle consumes exactly the queue's current batch (the
empty batch when the queue is empty) and leaves the queue holding no
unconsumed batch: the cycle's copy of the queue under `commands_lock` and its
final `commands.clear()` together realize `drainAll()`. -/
theorem print_cycle_drains_queue (alive : Nat → Bool) (env : ProcEnv)
    (adb : String → String → AdbOutcome) (k : Nat) (st : AgentState) :
    (printCycle alive env adb k st).1.commands = [] ∧
      (printCycle alive env adb k st).2 = st.commands := by
  rcases st with ⟨cmds, sess⟩
  cases cmds <;> simp [printCycle]

/-- C2: offering a batch while a prior batch B' is still unconsumed leaves the
queue containing exactly B' (the new batch is dropped whole, not merged), and
offering into an empty queue stores exactly the offered batch. -/
theorem offer_gated (B Bp : List Command) (h : Bp ≠ []) :
    offer Bp B = Bp ∧ offer [] B = B := by
  constructor
  · simp [offer, List.isEmpty_iff, h]
  · cases B <;> simp [offer]

/-- Closed witness for C2 at a concrete pending batch and a concrete new
batch. -/
theorem offer_gated_witness :
    ([⟨"s1", "shell echo a"⟩] : List Command) ≠ [] ∧
      (offer [⟨"s1", "shell echo a"⟩] [⟨"s2", "shell echo b"⟩] = [⟨"s1", "shell echo a"⟩] ∧
        offer [] [⟨"s2", "shell echo b"⟩] = [⟨"s2", "shell echo b"⟩]) :=
  ⟨by decide, offer_gated [⟨"s2", "shell echo b"⟩] [⟨"s1", "shell echo a"⟩] (by decide)⟩

/-- C3: a second `start` issued while the existing session's supervising
thread is alive is a no-op: the session map — hence the session's cancellation
token, thread and process entry — is left completely unchanged, so exactly one
live session exists for the serial. -/
theorem start_idempotent (alive : Nat → Bool) (m : SessMap) (serial : String)
    (s : Session) (t freshTok freshThread : Nat)
    (hs : m serial = some s) (ht : s.thread = some t) (halive : alive t = true) :
    handle_start_game alive m serial freshTok freshThread = m := by
  simp [handle_start_game, hs, ht, halive]

/-- Closed witness for C3: starting "d1" again while its thread 7 is alive
leaves the concrete session map untouched. -/
theorem start_idempotent_witness :
    (sessW "d1" = some sessionW ∧ sessionW.thread = some 7 ∧ aliveW 7 = true) ∧
      handle_start_game aliveW sessW "d1" 5 6 = sessW :=
  ⟨⟨rfl, rfl, rfl⟩, start_idempotent aliveW sessW "d1" sessionW 7 5 6 rfl rfl rfl⟩

/-- C4: at the supervising loop's post-exit check, if cancellation is not
requested (and remains unrequested through the backoff and the top guard) the
loop waits the backoff and relaunches the process exactly once, ending back in
the running phase (the session stays Running); if cancellation is requested at
the post-exit check the loop moves to the exited phase without launching, and
from the exited phase no step ever launches again. -/
theorem supervisor_relaunch_or_exit (b : Bool) (cs : List Bool) :
    supRun SupPhase.postExit [false, b, false] = (SupPhase.running, 1) ∧
      supStep SupPhase.postExit true = (SupPhase.exited, false) ∧
      supRun SupPhase.exited cs = (SupPhase.exited, 0) := by
  refine ⟨by cases b <;> rfl, rfl, ?_⟩
  induction cs with
  | nil => rfl
  | cons c rest ih => simpa [supRun, supStep] using ih

/-- C5: stopping a serial with an existing session (with a process handle
that is present and alive, and a supervising thread) signals the session's
cancellation token, requests graceful termination, force-kills exactly when
the process does not exit within the grace period, joins the supervising
thread, and removes the serial from the session map exactly once — whether
termination was graceful or forced. -/
theorem stop_existing_session (env : ProcEnv) (m : SessMap) (serial text : String)
    (s : Session) (p t : Nat)
    (hs : m serial = some s) (hp : s.process = some p) (ht : s.thread = some t)
    (halive : env.procAlive p = true) :
    (handle_stop_game env m serial text).1 = eraseSess m serial ∧
      (handle_stop_game env m serial text).1 serial = none ∧
      (handle_stop_game env m serial text).2 =
        Action.signalCancel s.stopTok :: Action.terminate p ::
          ((if env.gracefulExit p then [] else [Action.kill p]) ++
            [Action.joinThread t, Action.removeSession serial,
              Action.runOnce serial text]) ∧
      List.countP (fun a => decide (a = Action.removeSession serial))
        (handle_stop_game env m serial text).2 = 1 := by
  have hm : handle_stop_game env m serial text =
      (eraseSess m serial,
        Action.signalCancel s.stopTok :: Action.terminate p ::
          ((if env.gracefulExit p then [] else [Action.kill p]) ++
            [Action.joinThread t, Action.removeSession serial,
              Action.runOnce serial text])) := by
    simp [handle_stop_game, hs, hp, ht, halive]
  refine ⟨by rw [hm], by rw [hm]; simp [eraseSess], by rw [hm], ?_⟩
  rw [hm]
  cases hg : env.gracefulExit p <;> simp [List.countP_cons]

/-- Closed witness for C5: stopping "d2", whose process 9 is alive and
ignores graceful termination, under the concrete environment `envW`. -/
theorem stop_existing_session_witness :
    (stopSessW "d2" = some stopSessionW ∧ stopSessionW.process = some 9 ∧
        stopSessionW.thread = some 7 ∧ envW.procAlive 9 = true) ∧
      ((handle_stop_game envW stopSessW "d2" "shell am force-stop nat.myc.test").1 =
          eraseSess stopSessW "d2" ∧
        (handle_stop_game envW stopSessW "d2" "shell am force-stop nat.myc.test").1 "d2" = none ∧
        (handle_stop_game envW stopSessW "d2" "shell am force-stop nat.myc.test").2 =
          Action.signalCancel stopSessionW.stopTok :: Action.terminate 9 ::
            ((if envW.gracefulExit 9 then [] else [Action.kill 9]) ++
              [Action.joinThread 7, Action.removeSession "d2",
                Action.runOnce "d2" "shell am force-stop nat.myc.test"]) ∧
        List.countP (fun a => decide (a = Action.removeSession "d2"))
          (handle_stop_game envW stopSessW "d2" "shell am force-stop nat.myc.test").2 = 1) :=
  ⟨⟨rfl, rfl, rfl, rfl⟩,
    stop_existing_session envW stopSessW "d2" "shell am force-stop nat.myc.test"
      stopSessionW 9 7 rfl rfl rfl rfl⟩

/-- C6: stopping a serial with no existing session returns without error,
leaves the session map unchanged, and performs exactly one action: the
one-shot execution of the stop command itself (whose result is discarded, not
aggregated into any summary). -/
theorem stop_no_session_noop (env : ProcEnv) (m : SessMap) (serial text : String)
    (hs : m serial = none) :
    handle_stop_game env m serial text = (m, [Action.runOnce serial text]) := by
  simp [handle_stop_game, hs]

/-- Closed witness for C6: a stale stop on serial "x" against the empty
session map. -/
theorem stop_no_session_noop_witness :
    emptySess "x" = none ∧
      handle_stop_game envW emptySess "x" "shell am force-stop nat.myc.test" =
        (emptySess, [Action.runOnce "x" "shell am force-stop nat.myc.test"]) :=
  ⟨rfl, stop_no_session_noop envW emptySess "x" "shell am force-stop nat.myc.test" rfl⟩

/-- C7: on a drained batch whose commands all have a non-empty serial and
non-empty text (as the fetcher guarantees), the dispatcher's partition equals
the three order-preserving filters by the classification predicate — so every
command lands in exactly one of the start, stop and regular groups — and the
group sizes sum to the batch size. -/
theorem classification_partition (batch : List Command)
    (h : batch.all
        (fun c => decide (¬ c.serial = "") && decide (¬ c.command_text = "")) = true) :
    partitionBatch batch =
        (batch.filter (fun c => decide (classify c.command_text = Group.start)),
         batch.filter (fun c => decide (classify c.command_text = Group.stop)),
         batch.filter (fun c => decide (classify c.command_text = Group.regular))) ∧
      (partitionBatch batch).1.length + (partitionBatch batch).2.1.length
          + (partitionBatch batch).2.2.length = batch.length := by
  induction batch with
  | nil => exact ⟨rfl, rfl⟩
  | cons c rest ih =>
    rw [List.all_cons, Bool.and_eq_true] at h
    obtain ⟨hc, hrest⟩ := h
    rw [Bool.and_eq_true, decide_eq_true_eq, decide_eq_true_eq] at hc
    obtain ⟨ihEq, ihLen⟩ := ih hrest
    have hno : ¬(c.serial = "" ∨ c.command_text = "") := by
      rintro (h1 | h2)
      · exact hc.1 h1
      · exact hc.2 h2
    constructor
    · simp only [partitionBatch, if_neg hno]
      cases hcl : classify c.command_text <;>
        simp [List.filter_cons, hcl, ihEq]
    · simp only [partitionBatch, if_neg hno]
      cases hcl : classify c.command_text <;> simp [hcl] <;> omega

/-- Closed witness for C7 at the concrete three-command batch `batchW`. -/
theorem classification_partition_witness :
    batchW.all
        (fun c => decide (¬ c.serial = "") && decide (¬ c.command_text = "")) = true ∧
      (partitionBatch batchW =
          (batchW.filter (fun c => decide (classify c.command_text = Group.start)),
           batchW.filter (fun c => decide (classify c.command_text = Group.stop)),
           batchW.filter (fun c => decide (classify c.command_text = Group.regular))) ∧
        (partitionBatch batchW).1.length + (partitionBatch batchW).2.1.length
            + (partitionBatch batchW).2.2.length = batchW.length) :=
  ⟨rfl, classification_partition batchW rfl⟩

/-- C8: the regular-group result list has exactly one `ExecutionResult` per
regular-group input command, for every launch oracle (launch failures
included), and the cycle summary computed after the barrier join accounts for
every result: successes plus failures equal the input count. -/
theorem regular_results_complete (adb : String → String → AdbOutcome)
    (batch : List Command) :
    (runRegular adb batch).length = batch.length ∧
      successCount (runRegular adb batch) + (failResults (runRegular adb batch)).length
        = batch.length := by
  constructor
  · simp [runRegular]
  · have h : ∀ rs : List ExecResult, successCount rs + (failResults rs).length = rs.length := by
      intro rs
      induction rs with
      | nil => rfl
      | cons r rest ih =>
        by_cases hc : r.code = 0 <;>
          simp [successCount, failResults, List.countP_cons, hc] at ih ⊢ <;> omega
    rw [h]
    simp [runRegular]

/-- C9: on any launch-time fault, `run_adb_once` returns exit code -1, an
empty stdout and the fault description (stripped) in stderr, from a single
launch attempt with no retry. -/
theorem launch_fault_result (serial msg : String) :
    (run_adb_once serial (AdbOutcome.launchFault msg)).code = -1 ∧
      (run_adb_once serial (AdbOutcome.launchFault msg)).stderr = pyStrip msg ∧
      (run_adb_once serial (AdbOutcome.launchFault msg)).stdout = "" :=
  ⟨rfl, rfl, rfl⟩

/-- C10: a command text matching the persistent-session launch signature is
classified as start even when it also matches the session-termination
signature: the start signature is tested first, resolving the ambiguity in
favor of start. -/
theorem ambiguous_text_classified_start (text : String)
    (hstart : containsSub startSig text = true)
    (_hstop : containsSub stopSig text = true) :
    classify text = Group.start := by
  simp [classify, hstart]

/-- Closed witness for C10 at a concrete text containing both signatures. -/
theorem ambiguous_text_classified_start_witness :
    (containsSub startSig ambiguousTextW = true ∧
        containsSub stopSig ambiguousTextW = true) ∧
      classify ambiguousTextW = Group.start :=
  ⟨⟨rfl, rfl⟩, ambiguous_text_classified_start ambiguousTextW rfl rfl⟩

end Agent
